import Mathlib

/-
Verification of the KubernetesDrawer component
(plugins/kubernetes/src/components/KubernetesDrawer/KubernetesDrawer.tsx).

The development shallowly embeds the data-transformation logic of the file:

* a model of JavaScript values (`JsValue`) together with the JavaScript
  string conversion (`jsToString`) and the semantics of
  `JSON.parse(JSON.stringify(x, replacer))` used by
  `replaceNullsWithUndefined` (source lines 123-130);
* the `tryFormatClusterLink` boundary (source lines 132-144), parametrised
  by the behaviour of the imported `formatClusterLink` function, whose file
  is not part of this fragment and is therefore modelled from the spec;
* the `managedFields` replacer passed to `jsYaml.dump` (source lines
  250-257) and a serializer model;
* the two `useState` toggles of `KubernetesDrawerContent` as an explicit
  state machine (source lines 152-157, 217-244);
* the `unknown name` / `unknown object` title fallbacks (source lines
  178-182 and 296-307).

JavaScript numbers are modelled as integers; the inputs of interest
(deserialized Kubernetes resource descriptions) are acyclic, which the
inductive value type enforces.
-/

/-! ## JavaScript value model -/

mutual

/-- Model of an acyclic JavaScript value: `null`, `undefined`, booleans,
numbers (restricted to integers), strings, arrays and plain objects. -/
inductive JsValue where
  | jsNull
  | jsUndef
  | jsBool (b : Bool)
  | jsNum (n : Int)
  | jsStr (s : String)
  | jsArr (xs : JsArr)
  | jsObj (fs : JsObj)
deriving Repr, DecidableEq

/-- Model of a JavaScript array: a list of `JsValue`s, given as a mutual
inductive so that all functions below compute by structural recursion. -/
inductive JsArr where
  | nil
  | cons (head : JsValue) (tail : JsArr)
deriving Repr, DecidableEq

/-- Model of a JavaScript object: an insertion-ordered association list of
key/value pairs. -/
inductive JsObj where
  | nil
  | cons (key : String) (value : JsValue) (tail : JsObj)
deriving Repr, DecidableEq

end

/-- Test for the two JavaScript values `null` and `undefined`. -/
def isNullish : JsValue → Bool
  | .jsNull => true
  | .jsUndef => true
  | _ => false

mutual

/-- JavaScript ToString conversion `String(v)`: `null` prints as "null",
`undefined` as "undefined", plain objects as "[object Object]" and arrays
via `Array.prototype.join` with separator ",", in which `null` and
`undefined` elements contribute the empty string. -/
def jsToString : JsValue → String
  | .jsNull => "null"
  | .jsUndef => "undefined"
  | .jsBool true => "true"
  | .jsBool false => "false"
  | .jsNum n => toString n
  | .jsStr s => s
  | .jsObj _ => "[object Object]"
  | .jsArr xs => joinPieces xs
termination_by structural v => v

/-- The `Array.prototype.join(",")` semantics used by `String` on arrays:
elements are converted with `jsToString`, except that `null` and
`undefined` elements become the empty string, and pieces are separated by
",". -/
def joinPieces : JsArr → String
  | .nil => ""
  | .cons x .nil => if isNullish x then "" else jsToString x
  | .cons x rest => (if isNullish x then "" else jsToString x) ++ "," ++ joinPieces rest
termination_by structural xs => xs

end

/-- The condition of the replacer inside `replaceNullsWithUndefined`
(source lines 124-127): a value is dropped exactly when
`String(value) === "null" || String(value) === "undefined"`. -/
def removable (v : JsValue) : Bool :=
  jsToString v == "null" || jsToString v == "undefined"

mutual

/-- Semantics of `JSON.stringify(someObj, replacer)` followed by parsing
the produced text, for the replacer of `replaceNullsWithUndefined`:
`none` means the whole stringification produced `undefined` (the top-level
value was dropped by the replacer). Dropped object members are omitted;
dropped array elements are serialized as `null`, per the JSON
serialization algorithm. -/
def stringifyStrip : JsValue → Option JsValue
  | .jsArr xs =>
    if removable (.jsArr xs) then none else some (.jsArr (stripArr xs))
  | .jsObj fs =>
    if removable (.jsObj fs) then none else some (.jsObj (stripObj fs))
  | v => if removable v then none else some v
termination_by structural v => v

/-- Array elements under `JSON.stringify` with the replacer: an element
dropped by the replacer is emitted as `null`, every other element is
serialized recursively. -/
def stripArr : JsArr → JsArr
  | .nil => .nil
  | .cons x rest => .cons ((stringifyStrip x).getD .jsNull) (stripArr rest)
termination_by structural xs => xs

/-- Object members under `JSON.stringify` with the replacer: a member whose
value is dropped by the replacer is omitted, every other member is kept
(in insertion order) with its value serialized recursively. -/
def stripObj : JsObj → JsObj
  | .nil => .nil
  | .cons k x rest =>
    match stringifyStrip x with
    | none => stripObj rest
    | some y => .cons k y (stripObj rest)
termination_by structural fs => fs

end

/-- Embedding of `replaceNullsWithUndefined` (source lines 123-130):
`JSON.parse(JSON.stringify(someObj, replacer))`. When the top-level value
itself is dropped by the replacer, `JSON.stringify` returns `undefined`
and `JSON.parse` then throws a `SyntaxError` (it receives the string
"undefined", which is not valid JSON); the `Except.error` branch models
that exception. -/
def replaceNullsWithUndefined (someObj : JsValue) : Except String JsValue :=
  match stringifyStrip someObj with
  | some w => .ok w
  | none => .error "SyntaxError: Unexpected token u in JSON at position 0"

example : replaceNullsWithUndefined .jsNull =
    .error "SyntaxError: Unexpected token u in JSON at position 0" := rfl

example :
    replaceNullsWithUndefined
      (.jsObj (.cons "a" .jsNull (.cons "b" (.jsStr "undefined") (.cons "c" (.jsNum 1) .nil)))) =
    .ok (.jsObj (.cons "c" (.jsNum 1) .nil)) := rfl

example :
    replaceNullsWithUndefined (.jsArr (.cons .jsNull (.cons (.jsNum 1) .nil))) =
    .ok (.jsArr (.cons .jsNull (.cons (.jsNum 1) .nil))) := rfl

/-! ## Lemmas about the stringify/parse round trip -/

theorem removable_jsObj (fs : JsObj) : removable (.jsObj fs) = false := rfl

theorem stringifyStrip_none_of_removable (v : JsValue) (h : removable v = true) :
    stringifyStrip v = none := by
  cases v <;> simp [stringifyStrip, h]

theorem stringifyStrip_some_removable {v w : JsValue} (h : stringifyStrip v = some w) :
    removable v = false := by
  cases v <;> simp [stringifyStrip] at h <;> exact h.1

/-- A serialized value is never `null` nor `undefined`: the replacer drops
both before they can be returned. -/
theorem stringifyStrip_some_not_nullish {v w : JsValue} (h : stringifyStrip v = some w) :
    isNullish w = false := by
  cases v <;> simp [stringifyStrip] at h
  case jsNull => exact absurd h.1 (by decide)
  case jsUndef => exact absurd h.1 (by decide)
  all_goals (rw [← h.2]; rfl)

theorem removable_singleton (y : JsValue) (h : isNullish y = false) :
    removable (.jsArr (.cons y .nil)) = removable y := by
  simp [removable, jsToString, joinPieces, h]

/-- An array of two or more elements always joins with a comma, so its
string form is never exactly "null" or "undefined". -/
theorem removable_two_elts (x y : JsValue) (rest : JsArr) :
    removable (.jsArr (.cons x (.cons y rest))) = false := by
  have hc : ',' ∈ (jsToString (.jsArr (.cons x (.cons y rest)))).data := by
    simp [jsToString, joinPieces, String.data_append]
  rw [removable, Bool.or_eq_false_iff, beq_eq_false_iff_ne, beq_eq_false_iff_ne]
  constructor <;> intro h <;> rw [h] at hc <;> exact absurd hc (by decide)

/-- Serialization never produces a value that the replacer would drop: the
only removable values that can appear in the output are `null` array
elements, and arrays around them can never stringify to "null" or
"undefined". -/
theorem stringifyStrip_some_not_removable :
    ∀ v w, stringifyStrip v = some w → removable w = false
  | .jsNull, w, h => by simp [stringifyStrip] at h; exact absurd h.1 (by decide)
  | .jsUndef, w, h => by simp [stringifyStrip] at h; exact absurd h.1 (by decide)
  | .jsBool b, w, h => by simp [stringifyStrip] at h; rw [← h.2]; exact h.1
  | .jsNum n, w, h => by simp [stringifyStrip] at h; rw [← h.2]; exact h.1
  | .jsStr s, w, h => by simp [stringifyStrip] at h; rw [← h.2]; exact h.1
  | .jsObj fs, w, h => by
      simp [stringifyStrip] at h
      rw [← h.2]; exact removable_jsObj _
  | .jsArr .nil, w, h => by
      simp [stringifyStrip] at h
      rw [← h.2]; rfl
  | .jsArr (.cons x .nil), w, h => by
      simp [stringifyStrip, stripArr] at h
      rw [← h.2]
      cases hx : stringifyStrip x with
      | none => rfl
      | some y =>
          have hny : isNullish y = false := stringifyStrip_some_not_nullish hx
          rw [Option.getD_some, removable_singleton y hny]
          exact stringifyStrip_some_not_removable x y hx
  | .jsArr (.cons x (.cons z rest)), w, h => by
      simp [stringifyStrip, stripArr] at h
      rw [← h.2]
      exact removable_two_elts _ _ _
termination_by structural v => v

mutual

/-- Serializing an already-serialized value is the identity: the round
trip of `replaceNullsWithUndefined` is idempotent on accepted values. -/
theorem stringifyStrip_idem : ∀ v w, stringifyStrip v = some w → stringifyStrip w = some w
  | .jsNull, w, h => by simp [stringifyStrip] at h; exact absurd h.1 (by decide)
  | .jsUndef, w, h => by simp [stringifyStrip] at h; exact absurd h.1 (by decide)
  | .jsBool b, w, h => by
      simp [stringifyStrip] at h; rw [← h.2]; simp [stringifyStrip, h.1]
  | .jsNum n, w, h => by
      simp [stringifyStrip] at h; rw [← h.2]; simp [stringifyStrip, h.1]
  | .jsStr s, w, h => by
      simp [stringifyStrip] at h; rw [← h.2]; simp [stringifyStrip, h.1]
  | .jsArr xs, w, h => by
      have hrem := stringifyStrip_some_not_removable _ _ h
      simp [stringifyStrip] at h
      rw [← h.2] at hrem ⊢
      simp [stringifyStrip, hrem, stripArr_fix xs]
  | .jsObj fs, w, h => by
      simp [stringifyStrip] at h
      rw [← h.2]
      simp [stringifyStrip, removable_jsObj, stripObj_fix fs]
termination_by structural v => v

/-- Serialized array element lists are fixed points of the serialization. -/
theorem stripArr_fix : ∀ xs, stripArr (stripArr xs) = stripArr xs
  | .nil => rfl
  | .cons x rest => by
      cases hx : stringifyStrip x with
      | none => simp [stripArr, hx, stringifyStrip, stripArr_fix rest]; decide
      | some y => simp [stripArr, hx, stripArr_fix rest, stringifyStrip_idem x y hx]
termination_by structural xs => xs

/-- Serialized object member lists are fixed points of the serialization. -/
theorem stripObj_fix : ∀ fs, stripObj (stripObj fs) = stripObj fs
  | .nil => rfl
  | .cons k x rest => by
      cases hx : stringifyStrip x with
      | none => simp [stripObj, hx, stripObj_fix rest]
      | some y => simp [stripObj, hx, stripObj_fix rest, stringifyStrip_idem x y hx]
termination_by structural fs => fs

end

mutual

/-- Cleanliness predicate used to state the corrected removal property of
C4: every object member anywhere inside the value has a non-removable
value (object members whose string form is "null" or "undefined" are all
gone). Array elements are not constrained, because serialization keeps
dropped array elements as `null`. -/
def objClean : JsValue → Bool
  | .jsArr xs => objCleanArr xs
  | .jsObj fs => objCleanObj fs
  | _ => true
termination_by structural v => v

/-- Pointwise `objClean` over array elements. -/
def objCleanArr : JsArr → Bool
  | .nil => true
  | .cons x rest => objClean x && objCleanArr rest
termination_by structural xs => xs

/-- Pointwise `objClean` over object members, additionally requiring every
member value to be non-removable. -/
def objCleanObj : JsObj → Bool
  | .nil => true
  | .cons _ x rest => !removable x && objClean x && objCleanObj rest
termination_by structural fs => fs

end

mutual

/-- The serialization output never retains a removable object member. -/
theorem stringifyStrip_clean : ∀ v w, stringifyStrip v = some w → objClean w = true
  | .jsNull, w, h => by simp [stringifyStrip] at h; exact absurd h.1 (by decide)
  | .jsUndef, w, h => by simp [stringifyStrip] at h; exact absurd h.1 (by decide)
  | .jsBool b, w, h => by simp [stringifyStrip] at h; rw [← h.2]; rfl
  | .jsNum n, w, h => by simp [stringifyStrip] at h; rw [← h.2]; rfl
  | .jsStr s, w, h => by simp [stringifyStrip] at h; rw [← h.2]; rfl
  | .jsArr xs, w, h => by
      simp [stringifyStrip] at h
      rw [← h.2]
      simp [objClean, stripArr_clean xs]
  | .jsObj fs, w, h => by
      simp [stringifyStrip] at h
      rw [← h.2]
      simp [objClean, stripObj_clean fs]
termination_by structural v => v

/-- Serialized array element lists are pointwise clean. -/
theorem stripArr_clean : ∀ xs, objCleanArr (stripArr xs) = true
  | .nil => rfl
  | .cons x rest => by
      cases hx : stringifyStrip x with
      | none => simp [stripArr, hx, objCleanArr, objClean, stripArr_clean rest]
      | some y =>
          simp [stripArr, hx, objCleanArr, stripArr_clean rest, stringifyStrip_clean x y hx]
termination_by structural xs => xs

/-- Serialized object member lists are pointwise clean and non-removable. -/
theorem stripObj_clean : ∀ fs, objCleanObj (stripObj fs) = true
  | .nil => rfl
  | .cons k x rest => by
      cases hx : stringifyStrip x with
      | none => simp [stripObj, hx, stripObj_clean rest]
      | some y =>
          simp [stripObj, hx, objCleanObj, stripObj_clean rest,
            stringifyStrip_clean x y hx, stringifyStrip_some_not_removable x y hx]
termination_by structural fs => fs

end

/-! ## Claims about the null normalizer -/

/-- C4 counterexample: the claim quantifies over every node of every
acyclic structured input, but a removable array element is not absent from
the output of `replaceNullsWithUndefined`: `JSON.stringify` serializes a
dropped array element as `null`, so normalizing `[null, 1]` yields
`[null, 1]` again, and the retained element stringifies to "null". -/
theorem replaceNulls_removal_counterexample :
    replaceNullsWithUndefined (.jsArr (.cons .jsNull (.cons (.jsNum 1) .nil))) =
      .ok (.jsArr (.cons .jsNull (.cons (.jsNum 1) .nil))) ∧
    jsToString .jsNull = "null" :=
  ⟨rfl, rfl⟩

/-- C4 (amended): every object member whose value stringifies to exactly
"null" or "undefined" is absent from the output of
`replaceNullsWithUndefined` (in particular the example
`{a: null, b: "undefined", c: 1}` normalizes to `{c: 1}`), while a
removable array element is not removed but replaced by the `null` value in
the output. -/
theorem replaceNulls_removal_amended :
    (replaceNullsWithUndefined
        (.jsObj (.cons "a" .jsNull (.cons "b" (.jsStr "undefined") (.cons "c" (.jsNum 1) .nil)))) =
      .ok (.jsObj (.cons "c" (.jsNum 1) .nil))) ∧
    (∀ v w, replaceNullsWithUndefined v = .ok w → objClean w = true) ∧
    (∀ x rest, removable x = true → stripArr (.cons x rest) = .cons .jsNull (stripArr rest)) := by
  refine ⟨rfl, fun v w h => ?_, fun x rest h => ?_⟩
  · cases hx : stringifyStrip v with
    | none => simp [replaceNullsWithUndefined, hx] at h
    | some y =>
        simp [replaceNullsWithUndefined, hx] at h
        exact h ▸ stringifyStrip_clean v y hx
  · simp [stripArr, stringifyStrip_none_of_removable x h]

/-- C4 witness: the amended statement applied at concrete inputs. -/
theorem replaceNulls_removal_amended_witness :
    objClean (.jsObj (.cons "c" (.jsNum 1) .nil)) = true ∧
    stripArr (.cons (.jsStr "null") .nil) = .cons .jsNull .nil :=
  ⟨replaceNulls_removal_amended.2.1
      (.jsObj (.cons "a" .jsNull (.cons "b" (.jsStr "undefined") (.cons "c" (.jsNum 1) .nil))))
      (.jsObj (.cons "c" (.jsNum 1) .nil)) rfl,
   replaceNulls_removal_amended.2.2 (.jsStr "null") .nil rfl⟩

/-- C5: the normalize operation is idempotent; composing
`replaceNullsWithUndefined` with itself (propagating the exception, if
any) gives the same result as a single application. -/
theorem replaceNulls_idempotent (x : JsValue) :
    (replaceNullsWithUndefined x).bind replaceNullsWithUndefined =
      replaceNullsWithUndefined x := by
  cases hx : stringifyStrip x with
  | none => simp [replaceNullsWithUndefined, hx, Except.bind]
  | some w =>
      simp [replaceNullsWithUndefined, hx, Except.bind, stringifyStrip_idem x w hx]

/-- C6 counterexample: for a removable top-level input the source function
does not return an empty or undefined result; `JSON.stringify` yields
`undefined`, and `JSON.parse` of that input throws a `SyntaxError`, which
the `Except.error` branch of the embedding models. -/
theorem replaceNulls_top_level_counterexample :
    removable .jsNull = true ∧
    replaceNullsWithUndefined .jsNull =
      .error "SyntaxError: Unexpected token u in JSON at position 0" :=
  ⟨rfl, rfl⟩

/-- C6 (amended): when the top-level input value is itself removable (its
string form is exactly "null" or "undefined"), the operation fails with
the `SyntaxError` thrown by `JSON.parse` on the undefined serialization
result, rather than returning an empty result. -/
theorem replaceNulls_top_level_amended (v : JsValue) (h : removable v = true) :
    replaceNullsWithUndefined v =
      .error "SyntaxError: Unexpected token u in JSON at position 0" := by
  simp [replaceNullsWithUndefined, stringifyStrip_none_of_removable v h]

/-- C6 witness: the amended statement applied at the literal string
"undefined", which is removable. -/
theorem replaceNulls_top_level_amended_witness :
    removable (.jsStr "undefined") = true ∧
    replaceNullsWithUndefined (.jsStr "undefined") =
      .error "SyntaxError: Unexpected token u in JSON at position 0" :=
  ⟨rfl, replaceNulls_top_level_amended (.jsStr "undefined") rfl⟩

/-! ## Cluster link formatting -/

/-- Model of a JavaScript `Error` value as the formatter throws it: an
error class name and a message. -/
structure JsError where
  name : String
  message : String
deriving Repr, DecidableEq

/-- JavaScript `Error.prototype.toString()`: the name, joined with ": " to
the message when both are non-empty. -/
def jsErrorToString (e : JsError) : String :=
  if e.name = "" then e.message
  else if e.message = "" then e.name
  else e.name ++ ": " ++ e.message

/-- The expression `err.message || err.toString()` in the catch branch of
`tryFormatClusterLink` (source line 141): the message when truthy
(non-empty), otherwise the `toString` rendering. -/
def jsErrorDisplay (e : JsError) : String :=
  if e.message = "" then jsErrorToString e else e.message

/-- The `FormatClusterLinkOptions` record as assembled at the call site
(source lines 161-167): the dashboard configuration plus the displayed
object and its kind. The cluster name is not part of it. -/
structure FormatClusterLinkOptions where
  dashboardUrl : Option String
  dashboardApp : Option String
  dashboardParameters : Option JsValue
  object : JsValue
  kind : String
deriving Repr, DecidableEq

/-- The result shape of `tryFormatClusterLink` (source lines 132-144). -/
structure FormatResult where
  clusterLink : String
  errorMessage : String
deriving Repr, DecidableEq

/-- Embedding of `tryFormatClusterLink` (source lines 132-144),
parametrised by the formatter it calls: an `Except.ok` outcome models a
normal return of `formatClusterLink` and `Except.error` models a thrown
`Error`, which the catch branch converts into a `FormatResult` with empty
link. The total result type `FormatResult` (not `Except`) is the no-throw
guarantee of the boundary. -/
def tryFormatClusterLinkWith (fmt : FormatClusterLinkOptions → Except JsError String)
    (options : FormatClusterLinkOptions) : FormatResult :=
  match fmt options with
  | .ok link => ⟨link, ""⟩
  | .error err => ⟨"", jsErrorDisplay err⟩

/-- JavaScript `dashboardApp || "standard"` (source line 103 and the
modelled formatter): `undefined` and the empty string are falsy and fall
back to "standard". -/
def dashboardAppOrStandard : Option String → String
  | none => "standard"
  | some a => if a = "" then "standard" else a

/-- Modelled from the spec: the set of supported dashboard application
identifiers, "drawn from a small enumerated set" (spec sections 4.1
and 6); the defining file plugins/kubernetes/src/utils/clusterLinks is not
part of this fragment. -/
def supportedDashboardApps : List String :=
  ["standard", "rancher", "openshift", "gke", "aks", "eks"]

/-- Modelled from the spec: `formatClusterLink`, imported on source
line 43 from plugins/kubernetes/src/utils/clusterLinks, a file that is not
part of this fragment. Per spec section 4.1 it is deterministic, returns a
well-formed URL on success, and throws on an unsupported dashboard
application with a message describing the cause; the message cannot name
the cluster, because the options it receives carry no cluster name. -/
def formatClusterLink (options : FormatClusterLinkOptions) : Except JsError String :=
  if supportedDashboardApps.contains (dashboardAppOrStandard options.dashboardApp) then
    .ok ((options.dashboardUrl.getD "https://kubernetes.default.cluster") ++ "/" ++ options.kind)
  else
    .error ⟨"Error", "Could not find a dashboard app named " ++
      dashboardAppOrStandard options.dashboardApp⟩

/-- The concrete `tryFormatClusterLink` of the source, tied to the
modelled formatter. -/
def tryFormatClusterLink (options : FormatClusterLinkOptions) : FormatResult :=
  tryFormatClusterLinkWith formatClusterLink options

/-- The cluster attributes provided by `ClusterContext` (source line 160):
a name plus the dashboard configuration forwarded to the formatter. -/
structure ClusterAttributes where
  name : String
  dashboardUrl : Option String
  dashboardApp : Option String
  dashboardParameters : Option JsValue
deriving Repr, DecidableEq

/-- The options record built at the call site (source lines 161-167): only
the dashboard fields, the object and the kind are forwarded; the cluster
name is not. -/
def drawerFormatOptions (cluster : ClusterAttributes) (object : JsValue) (kind : String) :
    FormatClusterLinkOptions :=
  ⟨cluster.dashboardUrl, cluster.dashboardApp, cluster.dashboardParameters, object, kind⟩

/-- The message of the `ErrorPanel` rendered when formatting fails (source
lines 97-110): it names the cluster and its configured (or default)
dashboard application. -/
def errorPanelMessage (cluster : ClusterAttributes) : String :=
  "Could not format the link to the dashboard of your cluster named \x27" ++
    cluster.name ++ "\x27. Its dashboardApp property has been set to \x27" ++
    dashboardAppOrStandard cluster.dashboardApp ++ ".\x27"

/-! ## Claims about the cluster link boundary -/

/-- C1: for every attempted formatting, exactly one field of the result is
non-empty, given the spec contract of the formatter: a successful link is
a well-formed (hence non-empty) URL and a thrown error displays as
non-empty text. -/
theorem tryFormatClusterLink_exclusive
    (fmt : FormatClusterLinkOptions → Except JsError String)
    (options : FormatClusterLinkOptions)
    (hok : ∀ l, fmt options = .ok l → l ≠ "")
    (herr : ∀ e, fmt options = .error e → jsErrorDisplay e ≠ "") :
    Xor' ((tryFormatClusterLinkWith fmt options).clusterLink ≠ "")
      ((tryFormatClusterLinkWith fmt options).errorMessage ≠ "") := by
  cases hf : fmt options with
  | ok l =>
      exact Or.inl ⟨by simpa [tryFormatClusterLinkWith, hf] using hok l hf,
        by simp [tryFormatClusterLinkWith, hf]⟩
  | error e =>
      exact Or.inr ⟨by simpa [tryFormatClusterLinkWith, hf] using herr e hf,
        by simp [tryFormatClusterLinkWith, hf]⟩

/-- C1 witness: exclusivity instantiated with a formatter returning a
concrete URL. -/
theorem tryFormatClusterLink_exclusive_witness :
    Xor'
      ((tryFormatClusterLinkWith (fun _ => .ok "https://example.com/dashboard")
          ⟨none, none, none, .jsObj .nil, "Pod"⟩).clusterLink ≠ "")
      ((tryFormatClusterLinkWith (fun _ => .ok "https://example.com/dashboard")
          ⟨none, none, none, .jsObj .nil, "Pod"⟩).errorMessage ≠ "") :=
  tryFormatClusterLink_exclusive _ _
    (fun l hl => by cases hl; decide)
    (fun e he => nomatch he)

/-- C2: the boundary never throws: it is a total function into
`FormatResult`; every thrown error is converted into the caught shape with
empty link and the message derived from the exception, and every normal
return into the link shape with empty error. -/
theorem tryFormatClusterLink_no_throw
    (fmt : FormatClusterLinkOptions → Except JsError String)
    (options : FormatClusterLinkOptions) :
    (∀ e, fmt options = .error e →
      tryFormatClusterLinkWith fmt options = ⟨"", jsErrorDisplay e⟩) ∧
    (∀ l, fmt options = .ok l →
      tryFormatClusterLinkWith fmt options = ⟨l, ""⟩) := by
  constructor
  · intro e he; simp [tryFormatClusterLinkWith, he]
  · intro l hl; simp [tryFormatClusterLinkWith, hl]

/-- C2 witness: a thrown error with message "boom" is converted into a
`FormatResult`, not propagated. -/
theorem tryFormatClusterLink_no_throw_witness :
    tryFormatClusterLinkWith (fun _ => .error ⟨"Error", "boom"⟩)
      ⟨none, none, none, .jsObj .nil, "Pod"⟩ = ⟨"", "boom"⟩ :=
  (tryFormatClusterLink_no_throw (fun _ => .error ⟨"Error", "boom"⟩)
      ⟨none, none, none, .jsObj .nil, "Pod"⟩).1 ⟨"Error", "boom"⟩ rfl

/-- C3 counterexample: with the unsupported dashboard app "unknown-app"
and the cluster named "my-test-cluster", the format operation returns an
empty link and a non-empty error message, but the message does not contain
the cluster name: the options record passed to the formatter has no
cluster name in it. -/
theorem format_error_name_counterexample :
    (tryFormatClusterLink (drawerFormatOptions
        ⟨"my-test-cluster", some "https://example.com", some "unknown-app", none⟩
        (.jsObj .nil) "Pod")).clusterLink = "" ∧
    (tryFormatClusterLink (drawerFormatOptions
        ⟨"my-test-cluster", some "https://example.com", some "unknown-app", none⟩
        (.jsObj .nil) "Pod")).errorMessage ≠ "" ∧
    ¬ ("my-test-cluster".data <:+:
      (tryFormatClusterLink (drawerFormatOptions
          ⟨"my-test-cluster", some "https://example.com", some "unknown-app", none⟩
          (.jsObj .nil) "Pod")).errorMessage.data) :=
  ⟨rfl, by decide, by decide⟩

/-- C3 (amended): when the dashboard application identifier is unsupported
the format operation returns an empty link and a non-empty error message
describing the cause; the boundary result is independent of the cluster
name (which is not forwarded to the formatter), and the cluster name
instead appears in the error panel message that the drawer renders
alongside the error. -/
theorem format_error_name_amended :
    (∀ (fmt : FormatClusterLinkOptions → Except JsError String)
      (c₁ c₂ : ClusterAttributes) (object : JsValue) (kind : String),
      c₁.dashboardUrl = c₂.dashboardUrl → c₁.dashboardApp = c₂.dashboardApp →
      c₁.dashboardParameters = c₂.dashboardParameters →
      tryFormatClusterLinkWith fmt (drawerFormatOptions c₁ object kind) =
        tryFormatClusterLinkWith fmt (drawerFormatOptions c₂ object kind)) ∧
    (∀ (c : ClusterAttributes) (object : JsValue) (kind : String),
      supportedDashboardApps.contains (dashboardAppOrStandard c.dashboardApp) = false →
      (tryFormatClusterLink (drawerFormatOptions c object kind)).clusterLink = "" ∧
      (tryFormatClusterLink (drawerFormatOptions c object kind)).errorMessage ≠ "") ∧
    (∀ c : ClusterAttributes, c.name.data <:+: (errorPanelMessage c).data) := by
  refine ⟨?_, ?_, ?_⟩
  · intro fmt c₁ c₂ object kind h1 h2 h3
    unfold drawerFormatOptions
    rw [h1, h2, h3]
  · intro c object kind h
    have hmsg : ("Could not find a dashboard app named " ++
        dashboardAppOrStandard c.dashboardApp) ≠ "" := by
      intro he
      have hd := congrArg String.data he
      rw [String.data_append] at hd
      have hnil : ("Could not find a dashboard app named ").data = ([] : List Char) :=
        (List.append_eq_nil.mp hd).1
      exact absurd hnil (by decide)
    have hfmt : formatClusterLink (drawerFormatOptions c object kind) =
        .error ⟨"Error", "Could not find a dashboard app named " ++
          dashboardAppOrStandard c.dashboardApp⟩ := by
      simp only [formatClusterLink, drawerFormatOptions]
      rw [if_neg]
      simpa using h
    constructor
    · simp [tryFormatClusterLink, tryFormatClusterLinkWith, hfmt]
    · simp [tryFormatClusterLink, tryFormatClusterLinkWith, hfmt,
        jsErrorDisplay, hmsg]
  · intro c
    refine ⟨("Could not format the link to the dashboard of your cluster named \x27").data,
      ("\x27. Its dashboardApp property has been set to \x27" ++
        dashboardAppOrStandard c.dashboardApp ++ ".\x27").data, ?_⟩
    simp [errorPanelMessage, String.data_append, List.append_assoc]

/-- C3 witness: the amended statement applied to a cluster named "prod"
with the unsupported dashboard app "bogus-app". -/
theorem format_error_name_amended_witness :
    (tryFormatClusterLink (drawerFormatOptions
        ⟨"prod", some "https://example.com", some "bogus-app", none⟩
        (.jsObj .nil) "Pod")).clusterLink = "" ∧
    (tryFormatClusterLink (drawerFormatOptions
        ⟨"prod", some "https://example.com", some "bogus-app", none⟩
        (.jsObj .nil) "Pod")).errorMessage ≠ "" :=
  format_error_name_amended.2.1
    ⟨"prod", some "https://example.com", some "bogus-app", none⟩
    (.jsObj .nil) "Pod" (by decide)

/-! ## YAML projection -/

/-- The replacer passed to `jsYaml.dump` (source lines 251-256): when the
managed-fields flag is off, the key "managedFields" maps to `undefined`
(the member is dropped); otherwise every value is kept unchanged. -/
def yamlReplacer (managedFields : Bool) (key : String) (value : JsValue) : Option JsValue :=
  if !managedFields then (if key == "managedFields" then none else some value)
  else some value

mutual

/-- Modelled from the spec: the effect of the replacer during `jsYaml.dump`
serialization (js-yaml itself is an external library): the replacer is
consulted for every object member during serialization; members mapped to
`undefined` are omitted, and array elements have numeric keys, which never
equal "managedFields", so they are always kept (spec section 4.3). -/
def filterManagedFields (flag : Bool) : JsValue → JsValue
  | .jsArr xs => .jsArr (filterManagedFieldsArr flag xs)
  | .jsObj fs => .jsObj (filterManagedFieldsObj flag fs)
  | v => v
termination_by structural v => v

/-- Elementwise replacer application over array elements. -/
def filterManagedFieldsArr (flag : Bool) : JsArr → JsArr
  | .nil => .nil
  | .cons x rest => .cons (filterManagedFields flag x) (filterManagedFieldsArr flag rest)
termination_by structural xs => xs

/-- Replacer application over object members: a member is kept exactly when
the replacer returns a value for it (this replacer always returns the
value unchanged when it keeps a member). -/
def filterManagedFieldsObj (flag : Bool) : JsObj → JsObj
  | .nil => .nil
  | .cons k x rest =>
    match yamlReplacer flag k x with
    | none => filterManagedFieldsObj flag rest
    | some _ => .cons k (filterManagedFields flag x) (filterManagedFieldsObj flag rest)
termination_by structural fs => fs

end

mutual

/-- Modelled from the spec: a deterministic flow-style text rendering of
the filtered value standing in for the external js-yaml renderer; mapping
keys are emitted in insertion order (spec section 4.3). -/
def yamlDump : JsValue → String
  | .jsNull => "null"
  | .jsUndef => ""
  | .jsBool true => "true"
  | .jsBool false => "false"
  | .jsNum n => toString n
  | .jsStr s => s
  | .jsArr xs => "[" ++ yamlDumpArr xs ++ "]"
  | .jsObj fs => "\x7b" ++ yamlDumpObj fs ++ "\x7d"
termination_by structural v => v

/-- Rendering of array elements, comma separated, in order. -/
def yamlDumpArr : JsArr → String
  | .nil => ""
  | .cons x .nil => yamlDump x
  | .cons x rest => yamlDump x ++ ", " ++ yamlDumpArr rest
termination_by structural xs => xs

/-- Rendering of object members, comma separated, in insertion order. -/
def yamlDumpObj : JsObj → String
  | .nil => ""
  | .cons k x .nil => k ++ ": " ++ yamlDump x
  | .cons k x rest => k ++ ": " ++ yamlDump x ++ ", " ++ yamlDumpObj rest
termination_by structural fs => fs

end

/-- Embedding of the YAML projection of the source (source lines 250-257):
`jsYaml.dump(object, replacer)` where the replacer drops "managedFields"
members unless the managed-fields flag is set. -/
def toYaml (v : JsValue) (includeManagedFields : Bool) : String :=
  yamlDump (filterManagedFields includeManagedFields v)

mutual

/-- All mapping keys encountered while serializing a value, in emission
order and at every depth. -/
def dumpedKeys : JsValue → List String
  | .jsArr xs => dumpedKeysArr xs
  | .jsObj fs => dumpedKeysObj fs
  | _ => []
termination_by structural v => v

/-- Keys encountered inside array elements. -/
def dumpedKeysArr : JsArr → List String
  | .nil => []
  | .cons x rest => dumpedKeys x ++ dumpedKeysArr rest
termination_by structural xs => xs

/-- Keys encountered among object members: each member contributes its own
key and then the keys inside its value. -/
def dumpedKeysObj : JsObj → List String
  | .nil => []
  | .cons k x rest => k :: (dumpedKeys x ++ dumpedKeysObj rest)
termination_by structural fs => fs

end

/-- The mapping keys emitted while rendering `toYaml v flag`. -/
def toYamlKeys (v : JsValue) (flag : Bool) : List String :=
  dumpedKeys (filterManagedFields flag v)

/-- The member keys of an object member list, in insertion order. -/
def objKeys : JsObj → List String
  | .nil => []
  | .cons k _ rest => k :: objKeys rest

/-- The top-level mapping keys of a value; empty for non-objects. -/
def topKeys : JsValue → List String
  | .jsObj fs => objKeys fs
  | _ => []

mutual

/-- With the managed-fields flag on, the replacer keeps everything. -/
theorem filterManagedFields_true : ∀ v, filterManagedFields true v = v
  | .jsNull => rfl
  | .jsUndef => rfl
  | .jsBool _ => rfl
  | .jsNum _ => rfl
  | .jsStr _ => rfl
  | .jsArr xs => by simp [filterManagedFields, filterManagedFieldsArr_true xs]
  | .jsObj fs => by simp [filterManagedFields, filterManagedFieldsObj_true fs]
termination_by structural v => v

/-- Array version of `filterManagedFields_true`. -/
theorem filterManagedFieldsArr_true : ∀ xs, filterManagedFieldsArr true xs = xs
  | .nil => rfl
  | .cons x rest => by
      simp [filterManagedFieldsArr, filterManagedFields_true x, filterManagedFieldsArr_true rest]
termination_by structural xs => xs

/-- Object version of `filterManagedFields_true`. -/
theorem filterManagedFieldsObj_true : ∀ fs, filterManagedFieldsObj true fs = fs
  | .nil => rfl
  | .cons k x rest => by
      simp [filterManagedFieldsObj, yamlReplacer, filterManagedFields_true x,
        filterManagedFieldsObj_true rest]
termination_by structural fs => fs

end

/-- Unfolding equation for the object filter with the flag off: the member
is dropped exactly when its key is "managedFields". -/
theorem filterObj_false_cons (k : String) (x : JsValue) (rest : JsObj) :
    filterManagedFieldsObj false (.cons k x rest) =
      if k == "managedFields" then filterManagedFieldsObj false rest
      else .cons k (filterManagedFields false x) (filterManagedFieldsObj false rest) := by
  by_cases hk : (k == "managedFields") = true
  · simp [filterManagedFieldsObj, yamlReplacer, hk]
  · simp [filterManagedFieldsObj, yamlReplacer, hk]

mutual

/-- With the managed-fields flag off, no "managedFields" key survives the
replacer anywhere in the serialized structure. -/
theorem managedFields_notin_dumpedKeys :
    ∀ v, "managedFields" ∉ dumpedKeys (filterManagedFields false v)
  | .jsNull => by simp [filterManagedFields, dumpedKeys]
  | .jsUndef => by simp [filterManagedFields, dumpedKeys]
  | .jsBool _ => by simp [filterManagedFields, dumpedKeys]
  | .jsNum _ => by simp [filterManagedFields, dumpedKeys]
  | .jsStr _ => by simp [filterManagedFields, dumpedKeys]
  | .jsArr xs => by
      simp only [filterManagedFields, dumpedKeys]
      exact managedFields_notin_dumpedKeysArr xs
  | .jsObj fs => by
      simp only [filterManagedFields, dumpedKeys]
      exact managedFields_notin_dumpedKeysObj fs
termination_by structural v => v

/-- Array version of `managedFields_notin_dumpedKeys`. -/
theorem managedFields_notin_dumpedKeysArr :
    ∀ xs, "managedFields" ∉ dumpedKeysArr (filterManagedFieldsArr false xs)
  | .nil => by simp [filterManagedFieldsArr, dumpedKeysArr]
  | .cons x rest => by
      simp only [filterManagedFieldsArr, dumpedKeysArr, List.mem_append]
      rintro (hx | hrest)
      · exact managedFields_notin_dumpedKeys x hx
      · exact managedFields_notin_dumpedKeysArr rest hrest
termination_by structural xs => xs

/-- Object version of `managedFields_notin_dumpedKeys`. -/
theorem managedFields_notin_dumpedKeysObj :
    ∀ fs, "managedFields" ∉ dumpedKeysObj (filterManagedFieldsObj false fs)
  | .nil => by simp [filterManagedFieldsObj, dumpedKeysObj]
  | .cons k x rest => by
      by_cases hk : k = "managedFields"
      · rw [filterObj_false_cons, if_pos (by simpa using hk)]
        exact managedFields_notin_dumpedKeysObj rest
      · rw [filterObj_false_cons, if_neg (by simpa using hk)]
        simp only [dumpedKeysObj, List.mem_cons, List.mem_append]
        rintro (heq | hx | hrest)
        · exact hk heq.symm
        · exact managedFields_notin_dumpedKeys x hx
        · exact managedFields_notin_dumpedKeysObj rest hrest
termination_by structural fs => fs

end

/-- Key order after filtering with the flag off: the insertion order of the
input with the "managedFields" members removed. -/
theorem filterObj_keys_false : ∀ fs, objKeys (filterManagedFieldsObj false fs) =
    (objKeys fs).filter (fun k => !(k == "managedFields"))
  | .nil => rfl
  | .cons k x rest => by
      by_cases hk : (k == "managedFields") = true
      · rw [filterObj_false_cons, if_pos hk]
        simp [objKeys, List.filter_cons, hk, filterObj_keys_false rest]
      · rw [filterObj_false_cons, if_neg hk]
        simp only [hk, objKeys, List.filter_cons, Bool.not_false, if_true]
        simp [hk, filterObj_keys_false rest]
termination_by structural fs => fs

/-- Sample resource object used by the concrete instantiations below: a
pod-like object carrying a nested managedFields member. -/
def samplePod : JsValue :=
  .jsObj (.cons "metadata"
    (.jsObj (.cons "name" (.jsStr "pod-a")
      (.cons "managedFields" (.jsArr (.cons (.jsStr "agent") .nil)) .nil)))
    (.cons "status" (.jsStr "Running") .nil))

example : toYamlKeys samplePod false = ["metadata", "name", "status"] := rfl

example : toYamlKeys samplePod true = ["metadata", "name", "managedFields", "status"] := rfl

/-! ## Claims about the YAML projection -/

/-- C7: the YAML projection with the managed-fields flag off never emits
the mapping key "managedFields" at any nesting depth, and with the flag on
applies no filtering at all: the rendered value is the unchanged input. -/
theorem toYaml_managedFields_key (v : JsValue) :
    "managedFields" ∉ toYamlKeys v false ∧
    filterManagedFields true v = v ∧
    toYaml v true = yamlDump v :=
  ⟨managedFields_notin_dumpedKeys v, filterManagedFields_true v,
    by simp [toYaml, filterManagedFields_true v]⟩

/-- C7 witness: the claim instantiated at the sample pod object, whose
metadata carries a managedFields member. -/
theorem toYaml_managedFields_key_witness :
    "managedFields" ∉ toYamlKeys samplePod false ∧
    filterManagedFields true samplePod = samplePod ∧
    toYaml samplePod true = yamlDump samplePod :=
  toYaml_managedFields_key samplePod

/-- C8: the YAML projection is deterministic: invocations with equal input
value and equal flag produce equal output text; and mapping keys follow
the input insertion order: with the flag on the top-level key sequence is
exactly that of the input, and with the flag off it is the input order
with the managedFields members removed. -/
theorem toYaml_deterministic (v₁ v₂ : JsValue) (f₁ f₂ : Bool)
    (hv : v₁ = v₂) (hf : f₁ = f₂) :
    toYaml v₁ f₁ = toYaml v₂ f₂ ∧
    topKeys (filterManagedFields true v₁) = topKeys v₁ ∧
    topKeys (filterManagedFields false v₁) =
      (topKeys v₁).filter (fun k => !(k == "managedFields")) := by
  subst hv; subst hf
  refine ⟨rfl, ?_, ?_⟩
  · rw [filterManagedFields_true]
  · cases v₁
    case jsObj fs =>
      simp only [filterManagedFields, topKeys]
      exact filterObj_keys_false fs
    all_goals simp [filterManagedFields, topKeys]

/-- C8 witness: determinism and key ordering instantiated at the sample
pod object with the flag off. -/
theorem toYaml_deterministic_witness :
    toYaml samplePod false = toYaml samplePod false ∧
    topKeys (filterManagedFields true samplePod) = topKeys samplePod ∧
    topKeys (filterManagedFields false samplePod) =
      (topKeys samplePod).filter (fun k => !(k == "managedFields")) :=
  toYaml_deterministic samplePod samplePod false false rfl rfl

/-! ## Drawer content state machine -/

/-- The two `useState` cells of `KubernetesDrawerContent` (source lines
152-157): whether the raw YAML display is active, and whether managed
fields are shown there. -/
structure DrawerState where
  isYaml : Bool
  managedFields : Bool
deriving Repr, DecidableEq

/-- The change events of the two switches (source lines 217-244), each
carrying the checked state reported by the control. -/
inductive DrawerEvent where
  | setYaml (checked : Bool)
  | setManagedFields (checked : Bool)
deriving Repr, DecidableEq

/-- The transition function of the two switches: the YAML switch stores its
checked state (source lines 222-224); the managed-fields switch stores its
checked state only while the YAML display is active (source lines
234-238). -/
def drawerStep (s : DrawerState) : DrawerEvent → DrawerState
  | .setYaml b => ⟨b, s.managedFields⟩
  | .setManagedFields b => if s.isYaml then ⟨s.isYaml, b⟩ else s

/-- The checked state rendered by the managed-fields switch (source line
233): `isYaml && managedFields`. -/
def managedFieldsSwitchChecked (s : DrawerState) : Bool :=
  s.isYaml && s.managedFields

/-- C9: toggling the display mode from raw to structured leaves the
managed-fields sub-state untouched, and while the structured display is
active the managed-fields switch renders as off and toggling it does not
change the stored state. -/
theorem drawer_state_frame (s : DrawerState) (b : Bool) :
    (drawerStep s (.setYaml false)).managedFields = s.managedFields ∧
    (s.isYaml = false →
      managedFieldsSwitchChecked s = false ∧ drawerStep s (.setManagedFields b) = s) := by
  refine ⟨rfl, fun h => ⟨?_, ?_⟩⟩
  · simp [managedFieldsSwitchChecked, h]
  · simp [drawerStep, h]

/-- C9 witness: in the structured display with a previously stored
managed-fields preference, the switch shows off and toggling it is a
no-op, while the stored preference survives. -/
theorem drawer_state_frame_witness :
    (drawerStep ⟨false, true⟩ (.setYaml false)).managedFields = true ∧
    managedFieldsSwitchChecked ⟨false, true⟩ = false ∧
    drawerStep ⟨false, true⟩ (.setManagedFields true) = ⟨false, true⟩ := by
  have h := drawer_state_frame ⟨false, true⟩ true
  exact ⟨h.1, (h.2 rfl).1, (h.2 rfl).2⟩

/-! ## Title fallbacks -/

/-- The `metadata` record of a displayed object, as used by the drawer:
only the optional `name` member is consulted. -/
structure V1ObjectMeta where
  name : Option String
deriving Repr, DecidableEq

/-- A drawable object (`KubernetesDrawerable`, source lines 112-114): a
record with an optional metadata block. -/
structure KubernetesDrawerable where
  metadata : Option V1ObjectMeta
deriving Repr, DecidableEq

/-- The drawer content header title (source line 180):
`object.metadata?.name ?? "unknown name"`, with optional chaining
modelled by `Option.bind`. -/
def drawerContentTitle (object : KubernetesDrawerable) : String :=
  (object.metadata.bind V1ObjectMeta.name).getD "unknown name"

/-- The default trigger button label (source lines 300-306): when no
children are supplied, `object.metadata?.name ?? "unknown object"`;
otherwise the supplied children. -/
def drawerButtonLabel (object : KubernetesDrawerable) (children : Option String) : String :=
  match children with
  | some c => c
  | none => (object.metadata.bind V1ObjectMeta.name).getD "unknown object"

/-- C10: whenever the object exposes no metadata name (metadata missing or
name absent), the drawer content header falls back to "unknown name" and
the default trigger button to "unknown object". -/
theorem unknown_title_fallbacks (object : KubernetesDrawerable)
    (h : object.metadata.bind V1ObjectMeta.name = none) :
    drawerContentTitle object = "unknown name" ∧
    drawerButtonLabel object none = "unknown object" := by
  constructor
  · simp [drawerContentTitle, h]
  · simp [drawerButtonLabel, h]

/-- C10 witness: an object with a metadata block that has no name. -/
theorem unknown_title_fallbacks_witness :
    drawerContentTitle ⟨some ⟨none⟩⟩ = "unknown name" ∧
    drawerButtonLabel ⟨some ⟨none⟩⟩ none = "unknown object" :=
  unknown_title_fallbacks ⟨some ⟨none⟩⟩ rfl
